import Mathlib

/-!
Verification of the schema-inference and graph-construction pipeline of the
Agentic-Knowledge-Graph-Construction repository.

The definitions below are a shallow embedding of:
* `src/L9/construct_graph.py` (`GraphConstructor.create_nodes`,
  `create_relationships`, `construct_complete_graph`),
* `src/src/agents/schema_proposal_agent.py` (`_extract_properties_from_sample`,
  `_infer_primary_key`, `_infer_relationships`, `_calculate_import_order`),
* `src/src/agents/kg_constructor_agent.py` (`clear_database_tool`,
  `create_relationships_tool`, `verify_graph_tool`).

Machine integers do not occur; cell values are modelled as strings or
integers.  The graph store (Neo4j, reached through the external
`neo4j_for_adk` client which is not part of the sources) is modelled where a
claim needs its semantics; those definitions carry `Modelled from the spec:`
doc comments.
-/

/-- Python's `str.lower()` on ASCII text: per-character lowercasing, kept
character-list based so concrete instances evaluate in the kernel. -/
def lowerStr (s : String) : String := String.mk (s.data.map Char.toLower)

/-- Python's `str.upper()` on ASCII text. -/
def upperStr (s : String) : String := String.mk (s.data.map Char.toUpper)

namespace KG

/-- A value held in a table cell or graph property (strings and numbers are
the only value shapes the claims exercise). -/
inductive Value where
  | str (s : String)
  | num (n : Int)
deriving DecidableEq, Repr

/-- A DataFrame row: an association list from column name to value, where
`none` models a pandas NaN (so `prop in row` = key present, `pd.notna` =
value is `some`). -/
abbrev Record := List (String × Option Value)

/-- The key-value projection built for one record by
`GraphConstructor.create_nodes` (construct_graph.py lines 110-122): iterate
over `[unique_property] + properties`; keep `prop: value` exactly when the
column is present and not NaN. -/
def projectRecord (row : Record) (uniqueProperty : String)
    (properties : List String) : List (String × Value) :=
  (uniqueProperty :: properties).filterMap fun p =>
    match row.lookup p with
    | some (some v) => some (p, v)
    | _ => none

/-- One `MERGE (:Label {props})` statement, abstracted to its label and
property pattern (string escaping is presentation only). -/
structure MergeStatement where
  label : String
  props : List (String × Value)
deriving DecidableEq, Repr

/-- The merge statements built for one batch (construct_graph.py lines
110-126): a record whose projection is empty yields no statement
(`if props:`). -/
def buildMergeStatements (batch : List Record) (label uniqueProperty : String)
    (properties : List String) : List MergeStatement :=
  batch.filterMap fun row =>
    let props := projectRecord row uniqueProperty properties
    if props.isEmpty then none else some ⟨label, props⟩

/-- Fuel-indexed batch splitting; with fuel ≥ the list length and a positive
batch size this is exactly `for i in range(0, len(df), batch_size):
df.iloc[i:i+batch_size]` (construct_graph.py line 106-107). -/
def chunksAux (bs : Nat) : Nat → List α → List (List α)
  | _, [] => []
  | 0, _ :: _ => []
  | fuel + 1, x :: xs => (x :: xs).take bs :: chunksAux bs fuel ((x :: xs).drop bs)

/-- The batches of a record list. -/
def chunks (bs : Nat) (l : List α) : List (List α) :=
  chunksAux bs l.length l

/-- The batch size hardcoded in `create_nodes` (construct_graph.py line 104). -/
def batchSize : Nat := 50

/-- Outcome of `create_nodes`: the returned count, the number of per-batch
errors reported (line 136), and the batch statements actually sent through
`graphdb.send_query` (line 132), in order. -/
structure CreateNodesResult where
  nodesCreated : Nat
  issues : Nat
  sentBatches : List (List MergeStatement)
deriving DecidableEq, Repr

/-- The batch loop of `create_nodes` (construct_graph.py lines 106-138).
`outcome k` is the success status the store returns for the `k`-th query
actually sent; an empty statement list sends nothing (line 129), a
successful batch adds its statement count (line 134), a failed batch
reports one error and adds nothing (line 136). -/
def runBatches (outcome : Nat → Bool) (label uniqueProperty : String)
    (properties : List String) : List (List Record) → Nat → CreateNodesResult
  | [], _ => ⟨0, 0, []⟩
  | batch :: rest, k =>
    if (buildMergeStatements batch label uniqueProperty properties).isEmpty then
      runBatches outcome label uniqueProperty properties rest k
    else if outcome k then
      let r := runBatches outcome label uniqueProperty properties rest (k + 1)
      ⟨(buildMergeStatements batch label uniqueProperty properties).length + r.nodesCreated,
        r.issues,
        buildMergeStatements batch label uniqueProperty properties :: r.sentBatches⟩
    else
      let r := runBatches outcome label uniqueProperty properties rest (k + 1)
      ⟨r.nodesCreated, r.issues + 1,
        buildMergeStatements batch label uniqueProperty properties :: r.sentBatches⟩

/-- `GraphConstructor.create_nodes` (construct_graph.py lines 95-141),
restricted to the node-merge loop; the initial constraint attempt (lines
99-101) only logs a warning and affects neither count nor statements. -/
def create_nodes (df : List Record) (label uniqueProperty : String)
    (properties : List String) (outcome : Nat → Bool) : CreateNodesResult :=
  runBatches outcome label uniqueProperty properties (chunks batchSize df) 0

/-- A stored graph node: a label and a property map. -/
structure GraphNode where
  label : String
  props : List (String × Value)
deriving DecidableEq, Repr

/-- Modelled from the spec: the node-MERGE semantics executed by the external
graph store (`graphdb.send_query` forwards to Neo4j via `neo4j_for_adk`,
which is not under the sources).  Per §4.3, the upsert is
merge-by-full-property-set: an existing node matches only if it carries
every projected property with an identical value; otherwise a new node with
exactly the pattern's properties is created. -/
def mergeNode (store : List GraphNode) (label : String)
    (pattern : List (String × Value)) : List GraphNode :=
  if store.any (fun n =>
      n.label == label && pattern.all (fun kv => n.props.lookup kv.1 == some kv.2)) then
    store
  else
    store ++ [⟨label, pattern⟩]

/-- Exemplar record: Product P1 with price 10. -/
def productP1a : Record :=
  [("product_id", some (Value.str "P1")), ("price", some (Value.num 10))]

/-- Exemplar record: Product P1 with price 12 (differs only in the optional
property `price`). -/
def productP1b : Record :=
  [("product_id", some (Value.str "P1")), ("price", some (Value.num 12))]

/-- Exemplar record set of 130 rows, each with a non-null `id` column. -/
def df130 : List Record :=
  (List.range 130).map fun i => [("id", some (Value.num i))]

end KG

namespace SchemaProposalAgent

/-- A property descriptor as produced by `_extract_properties_from_sample`
(schema_proposal_agent.py lines 355-370); the constant description string is
omitted. -/
structure Property where
  name : String
  type : String
  required : Bool
deriving DecidableEq, Repr

/-- `SchemaProposalAgent._extract_properties_from_sample` (lines 355-370):
`none` models a sample without a `headers` entry; every header becomes a
property of type `"string"`, required iff the lowercased header is one of
`id`, `name`, `title`. -/
def _extract_properties_from_sample (headers : Option (List String)) :
    List Property :=
  match headers with
  | none => []
  | some hs =>
    hs.map fun h =>
      ⟨h, "string", (["id", "name", "title"]).contains (lowerStr h)⟩

/-- `SchemaProposalAgent._infer_primary_key` (lines 372-377): the first
property whose lowercased name is `id`, `uuid` or `key`; `none` otherwise. -/
def _infer_primary_key (properties : List Property) : Option String :=
  (properties.find? fun p =>
    (["id", "uuid", "key"]).contains (lowerStr p.name)).map Property.name

/-- The claim's (spec §4.1) primary-key rule, stated for comparison with the
source definition: also accepts a property named `<label>_id`
case-insensitively. -/
def claimedPrimaryKey (label : String) (properties : List Property) :
    Option String :=
  (properties.find? fun p =>
    (["id", "uuid", "key"]).contains (lowerStr p.name)
      || (lowerStr p.name) == (lowerStr label) ++ "_id").map Property.name

/-- The spec-side predicate used to state the amended primary-key claim. -/
def isIdLikeName (s : String) : Prop :=
  (lowerStr s) = "id" ∨ (lowerStr s) = "uuid" ∨ (lowerStr s) = "key"

instance (s : String) : Decidable (isIdLikeName s) := by
  unfold isIdLikeName; infer_instance

/-- Modelled from the spec (§4.1, stated for comparison with the source):
the narrowest of {boolean, integer, float, string} consistent with all
sampled values of a column, string on any ambiguity. -/
def claimedNarrowestType (values : List String) : String :=
  if values ≠ [] ∧ ∀ v ∈ values, (lowerStr v) = "true" ∨ (lowerStr v) = "false" then
    "boolean"
  else if values ≠ [] ∧ ∀ v ∈ values, v ≠ "" ∧ v.data.all Char.isDigit then
    "integer"
  else if values ≠ [] ∧ ∀ v ∈ values,
      v ≠ "" ∧ v.data.all (fun c => c.isDigit || c == '.') then
    "float"
  else
    "string"

/-- A node descriptor as assembled by `analyze_structured_data_tool`
(schema_proposal_agent.py lines 163-171), restricted to the fields
`_infer_relationships` and `_calculate_import_order` read. -/
structure NodeInfo where
  label : String
  source_file : String
  properties : List Property
deriving DecidableEq, Repr

/-- A relationship descriptor as built by `_infer_relationships`
(schema_proposal_agent.py lines 395-401). -/
structure Relationship where
  type : String
  from_label : String
  to_label : String
  property : String
  description : String
deriving DecidableEq, Repr

/-- `SchemaProposalAgent._infer_relationships` (lines 379-405): for every
node, every property, and every other node (skipped when the two node
dictionaries are equal), emit a BELONGS_TO relationship when the lowercased
property name is the lowercased other label followed by `_id` or `id`. -/
def _infer_relationships (nodes : List NodeInfo) : List Relationship :=
  nodes.flatMap fun node =>
    node.properties.flatMap fun prop =>
      nodes.filterMap fun other =>
        if node = other then none
        else if (lowerStr prop.name) = (lowerStr other.label) ++ "_id"
            ∨ (lowerStr prop.name) = (lowerStr other.label) ++ "id" then
          some ⟨"BELONGS_TO_" ++ (upperStr other.label), node.label, other.label,
            prop.name, node.label ++ " belongs to " ++ other.label⟩
        else none

/-- Whether a node has an outbound inferred relationship, the test
`any(rel['from_label'] == node['label'] for rel in relationships)` of
`_calculate_import_order` (lines 414-416). -/
def hasOutboundRel (relationships : List Relationship) (node : NodeInfo) : Bool :=
  relationships.any fun rel => rel.from_label == node.label

/-- Exemplar descriptor: a node type without outbound references. -/
def productNode : NodeInfo :=
  ⟨"Product", "products.csv", [⟨"id", "string", true⟩]⟩

/-- Exemplar descriptor: a node type referring to `Product` via
`product_id`. -/
def assemblyNode : NodeInfo :=
  ⟨"Assembly", "assemblies.csv", [⟨"product_id", "string", true⟩]⟩

/-- Exemplar inferred relationship from `assemblyNode` to `productNode`. -/
def assemblyBelongsToProduct : Relationship :=
  ⟨"BELONGS_TO_PRODUCT", "Assembly", "Product", "product_id",
    "Assembly belongs to Product"⟩

/-- One iteration of the `_calculate_import_order` loop (lines 413-421):
append the node's source file to the dependent or the independent bucket. -/
def importOrderStep (relationships : List Relationship)
    (acc : List String × List String) (node : NodeInfo) :
    List String × List String :=
  if hasOutboundRel relationships node then (acc.1, acc.2 ++ [node.source_file])
  else (acc.1 ++ [node.source_file], acc.2)

/-- `SchemaProposalAgent._calculate_import_order` (lines 407-423):
independent source files first, then dependent ones
(`return independent_nodes + dependent_nodes`). -/
def _calculate_import_order (nodes : List NodeInfo)
    (relationships : List Relationship) : List String :=
  (nodes.foldl (importOrderStep relationships) ([], [])).1
    ++ (nodes.foldl (importOrderStep relationships) ([], [])).2

end SchemaProposalAgent

namespace KGConstructorAgent

/-- One relationship configuration consumed by `create_relationships_tool`
(kg_constructor_agent.py lines 203-210). -/
structure RelationshipConfig where
  from_label : String
  to_label : String
  relationship_type : String
  match_property : String
deriving DecidableEq, Repr

/-- Whether two nodes carry the same non-null value for the match property
(the Cypher predicate `from.p = to.p`, which is false when either side is
null). -/
def sameMatchValue (a b : KG.GraphNode) (matchProperty : String) : Bool :=
  match a.props.lookup matchProperty, b.props.lookup matchProperty with
  | some v, some w => v == w
  | _, _ => false

/-- A stored directed edge, identified by its endpoint node indices and its
type (the `created_at` stamp set by the query carries no identity and is
omitted). -/
structure Edge where
  src : Nat
  dst : Nat
  relType : String
deriving DecidableEq, Repr

/-- Modelled from the spec: the pair matching of the Cypher
`MATCH (from:L1), (to:L2) WHERE from.p = to.p` clause executed by the
external store for the query built at kg_constructor_agent.py lines
212-218 — every ordered pair of node indices with the required labels and
equal non-null match-property values. -/
def matchPairs (nodes : List KG.GraphNode)
    (fromLabel toLabel matchProperty : String) : List (Nat × Nat) :=
  nodes.enum.flatMap fun a =>
    nodes.enum.filterMap fun b =>
      if a.2.label == fromLabel && b.2.label == toLabel
          && sameMatchValue a.2 b.2 matchProperty then
        some (a.1, b.1)
      else none

/-- Modelled from the spec: relationship MERGE semantics (§4.3) — an edge is
added only when no edge with the same endpoints and type exists. -/
def mergeEdge (edges : List Edge) (e : Edge) : List Edge :=
  if edges.contains e then edges else edges ++ [e]

/-- The store state a relationship-creation query acts on. -/
structure GraphState where
  nodes : List KG.GraphNode
  edges : List Edge
deriving DecidableEq, Repr

/-- Modelled from the spec: executing one relationship configuration of
`create_relationships_tool` (kg_constructor_agent.py lines 207-222) against
the store — merge one typed edge per matched pair. -/
def createRelationship (st : GraphState) (cfg : RelationshipConfig) :
    GraphState :=
  ⟨st.nodes,
    (matchPairs st.nodes cfg.from_label cfg.to_label cfg.match_property).foldl
      (fun es p => mergeEdge es ⟨p.1, p.2, cfg.relationship_type⟩) st.edges⟩

/-- A statement a clear operation may issue to the store. -/
inductive Query where
  | deleteAllNodes
deriving DecidableEq, Repr

/-- Result value of a tool call (`tool_success` / `tool_error` of the
external `neo4j_for_adk` helper module). -/
inductive ToolResult where
  | success
  | error (message : String)
deriving DecidableEq, Repr

/-- Modelled from the spec: `clear_neo4j_data` (in `utils/tools`, not under
the sources) — the destructive ClearAll operation of §4.3: it issues the
delete-everything statement and leaves an empty store. -/
def clear_neo4j_data (_store : List KG.GraphNode) :
    ToolResult × List Query × List KG.GraphNode :=
  (ToolResult.success, [Query.deleteAllNodes], [])

/-- `KnowledgeGraphConstructorAgent.clear_database_tool`
(kg_constructor_agent.py lines 138-152): without `confirm` it returns an
error and touches nothing; with `confirm` it runs `clear_neo4j_data`. -/
def clear_database_tool (confirm : Bool) (store : List KG.GraphNode) :
    ToolResult × List Query × List KG.GraphNode :=
  if !confirm then
    (ToolResult.error
      "Database clear requires explicit confirmation. This will delete all existing data!",
      [], store)
  else
    clear_neo4j_data store

/-- The Python default of the `confirm` parameter of `clear_database_tool`
(kg_constructor_agent.py line 138: `confirm: bool = False`). -/
def confirmDefault : Bool := false

/-- The Python default of the `clear_existing` parameter of
`GraphConstructor.construct_complete_graph` (construct_graph.py line 293:
`clear_existing: bool = True`). -/
def clearExistingDefault : Bool := true

/-- The statements the clear step of `construct_complete_graph` issues
(construct_graph.py lines 299-302: `if clear_existing:` then
`MATCH (n) DETACH DELETE n`). -/
def constructClearQueries (clear_existing : Bool) : List Query :=
  if clear_existing then [Query.deleteAllNodes] else []

/-- The health score computed by
`KnowledgeGraphConstructorAgent.verify_graph_tool` (kg_constructor_agent.py
lines 297-312) from the total node count, total relationship count and the
number of sampled connected paths. -/
def healthScore (totalNodes totalRelationships connectedPaths : Nat) : Nat :=
  (if totalNodes > 0 then 40 else 0)
    + (if totalRelationships > 0 then 40 else 0)
    + (if connectedPaths > 0 then 20 else 0)

/-- The categorical status derived from the health score
(kg_constructor_agent.py line 318). -/
def healthStatus (score : Nat) : String :=
  if score ≥ 80 then "healthy" else if score ≥ 40 then "degraded" else "unhealthy"

end KGConstructorAgent

namespace KG

/-- Claim C5: the Verifier's health score adds exactly 40 for nodes, 40 for
relationships and 20 for a connected sample; status is healthy iff ≥ 80,
degraded iff in [40, 80), unhealthy otherwise; hence 0/0 scores 0
(unhealthy), nodes-only scores 40 (degraded), all three checks score 100
(healthy). -/
theorem health_score_additive_with_thresholds
    (n r c : Nat) (hn : 0 < n) :
    (KGConstructorAgent.healthScore n r c
        = 40 + KGConstructorAgent.healthScore 0 r c)
    ∧ (0 < r → ∀ n' c', KGConstructorAgent.healthScore n' r c'
        = 40 + KGConstructorAgent.healthScore n' 0 c')
    ∧ (0 < c → ∀ n' r', KGConstructorAgent.healthScore n' r' c
        = 20 + KGConstructorAgent.healthScore n' r' 0)
    ∧ (∀ s, (KGConstructorAgent.healthStatus s = "healthy" ↔ 80 ≤ s)
        ∧ (KGConstructorAgent.healthStatus s = "degraded" ↔ 40 ≤ s ∧ s < 80)
        ∧ (KGConstructorAgent.healthStatus s = "unhealthy" ↔ s < 40))
    ∧ (KGConstructorAgent.healthScore 0 0 0 = 0
        ∧ KGConstructorAgent.healthStatus (KGConstructorAgent.healthScore 0 0 0)
            = "unhealthy")
    ∧ (KGConstructorAgent.healthScore n 0 0 = 40
        ∧ KGConstructorAgent.healthStatus (KGConstructorAgent.healthScore n 0 0)
            = "degraded")
    ∧ (0 < r → 0 < c →
        KGConstructorAgent.healthScore n r c = 100
        ∧ KGConstructorAgent.healthStatus (KGConstructorAgent.healthScore n r c)
            = "healthy") := by
  refine ⟨?_, ?_, ?_, ?_, ?_, ?_, ?_⟩
  · simp [KGConstructorAgent.healthScore, hn]
    omega
  · intro hr n' c'
    simp [KGConstructorAgent.healthScore, hr]
    omega
  · intro hc n' r'
    simp [KGConstructorAgent.healthScore, hc]
    omega
  · intro s
    unfold KGConstructorAgent.healthStatus
    by_cases h80 : 80 ≤ s
    · rw [if_pos h80]
      refine ⟨by simp [h80], ?_, ?_⟩ <;> constructor <;> intro h
      · exact absurd h (by decide)
      · exact absurd h.2 (by omega)
      · exact absurd h (by decide)
      · exact absurd h (by omega)
    · rw [if_neg h80]
      by_cases h40 : 40 ≤ s
      · rw [if_pos h40]
        refine ⟨⟨fun h => absurd h (by decide), fun h => absurd h h80⟩,
          by simp [h40]; omega, ?_⟩
        constructor <;> intro h
        · exact absurd h (by decide)
        · exact absurd h (by omega)
      · rw [if_neg h40]
        refine ⟨⟨fun h => absurd h (by decide), fun h => absurd h h80⟩,
          ⟨fun h => absurd h (by decide), fun h => absurd h.1 h40⟩,
          by constructor <;> intro h <;> [omega; rfl]⟩
  · simp [KGConstructorAgent.healthScore, KGConstructorAgent.healthStatus]
  · simp [KGConstructorAgent.healthScore, KGConstructorAgent.healthStatus, hn]
  · intro hr hc
    simp [KGConstructorAgent.healthScore, KGConstructorAgent.healthStatus,
      hn, hr, hc]

/-- Witness for C5 at concrete totals 1/1/1 and 1/0/0. -/
theorem health_score_additive_with_thresholds_witness :
    KGConstructorAgent.healthScore 1 1 1 = 100
    ∧ KGConstructorAgent.healthStatus (KGConstructorAgent.healthScore 1 1 1)
        = "healthy"
    ∧ KGConstructorAgent.healthScore 1 0 0 = 40
    ∧ KGConstructorAgent.healthStatus (KGConstructorAgent.healthScore 1 0 0)
        = "degraded" := by
  have h := health_score_additive_with_thresholds 1 1 1 (by decide)
  have h' := health_score_additive_with_thresholds 1 0 0 (by decide)
  obtain ⟨-, -, -, -, -, -, hfull⟩ := h
  obtain ⟨-, -, -, -, -, hdeg, -⟩ := h'
  obtain ⟨hs, hst⟩ := hfull (by decide) (by decide)
  exact ⟨hs, hst, hdeg.1, hdeg.2⟩

end KG

namespace SchemaProposalAgent

theorem contains_three_iff (a b c s : String) :
    (([a, b, c] : List String).contains s = true) ↔ s = a ∨ s = b ∨ s = c := by
  simp [List.contains]

theorem contains_idlike_iff (s : String) :
    ((["id", "uuid", "key"] : List String).contains (lowerStr s) = true)
      ↔ isIdLikeName s := by
  rw [contains_three_iff]; rfl

/-- Claim C3 counterexample: on a property list `[product_id]` with label
`Product`, the source primary-key inference returns `none`, while the
claimed rule (which also accepts `<label>_id`) returns `product_id`. -/
theorem infer_primary_key_no_label_id_rule :
    _infer_primary_key [⟨"product_id", "string", true⟩] = none
    ∧ claimedPrimaryKey "Product" [⟨"product_id", "string", true⟩]
        = some "product_id"
    ∧ _infer_primary_key [⟨"product_id", "string", true⟩]
        ≠ claimedPrimaryKey "Product" [⟨"product_id", "string", true⟩] := by
  refine ⟨by decide, by decide, by decide⟩

/-- Claim C3 (amended): primary-key inference returns the first property
whose name case-insensitively matches {id, uuid, key} and `none` when no
property matches; the `<label>_id` rule of the spec is not implemented
(witnessed by the `product_id` conjunct). -/
theorem infer_primary_key_first_idlike
    (properties : List Property) (p : Property) :
    _infer_primary_key [] = none
    ∧ (_infer_primary_key (p :: properties)
        = if isIdLikeName p.name then some p.name
          else _infer_primary_key properties)
    ∧ (_infer_primary_key properties = none
        ↔ ∀ q ∈ properties, ¬ isIdLikeName q.name)
    ∧ (∀ n, _infer_primary_key properties = some n
        → ∃ q ∈ properties, q.name = n ∧ isIdLikeName q.name)
    ∧ _infer_primary_key [⟨"product_id", "string", true⟩] = none := by
  refine ⟨rfl, ?_, ?_, ?_, by decide⟩
  · by_cases h : isIdLikeName p.name
    · have hb := (contains_idlike_iff p.name).mpr h
      simp only [_infer_primary_key, List.find?_cons, hb, if_pos h,
        Option.map_some']
    · have hb : ((["id", "uuid", "key"] : List String).contains (lowerStr p.name))
          = false := by
        rw [Bool.eq_false_iff]
        exact fun hc => h ((contains_idlike_iff p.name).mp hc)
      simp only [_infer_primary_key, List.find?_cons, hb, if_neg h]
  · simp [_infer_primary_key, List.find?_eq_none, isIdLikeName, not_or]
  · intro n hn
    unfold _infer_primary_key at hn
    rw [Option.map_eq_some'] at hn
    obtain ⟨q, hq, rfl⟩ := hn
    have hpred := List.find?_some hq
    exact ⟨q, List.mem_of_find?_eq_some hq,
      rfl, (contains_idlike_iff q.name).mp hpred⟩

/-- Claim C8 counterexample: a sampled column `quantity` with values
`["1", "2"]` has narrowest consistent type integer, yet the extraction
assigns type string (it performs no value-based inference at all). -/
theorem extract_properties_always_string :
    (_extract_properties_from_sample (some ["quantity"])).map Property.type
        = ["string"]
    ∧ claimedNarrowestType ["1", "2"] = "integer"
    ∧ ("string" : String) ≠ "integer" := by
  refine ⟨by decide, by decide, by decide⟩

/-- Claim C8 (amended): property extraction produces exactly one property
per sampled column, in order, but the inferred type is always `string` (no
narrowest-type inference); `required` is set iff the lowercased header is
`id`, `name` or `title`, and a sample without headers yields no
properties. -/
theorem extract_properties_one_per_column (headers : List String) :
    (_extract_properties_from_sample (some headers)).map Property.name
        = headers
    ∧ (∀ p ∈ _extract_properties_from_sample (some headers),
        p.type = "string"
        ∧ (p.required = true
            ↔ (lowerStr p.name) = "id" ∨ (lowerStr p.name) = "name"
              ∨ (lowerStr p.name) = "title"))
    ∧ _extract_properties_from_sample none = [] := by
  refine ⟨?_, ?_, rfl⟩
  · induction headers with
    | nil => rfl
    | cons h t ih => simpa [_extract_properties_from_sample] using ih
  · intro p hp
    simp only [_extract_properties_from_sample, List.mem_map] at hp
    obtain ⟨h, -, rfl⟩ := hp
    exact ⟨rfl, contains_three_iff "id" "name" "title" (lowerStr h)⟩

theorem foldl_importOrderStep (relationships : List Relationship)
    (nodes : List NodeInfo) (acc : List String × List String) :
    nodes.foldl (importOrderStep relationships) acc
      = (acc.1 ++ (nodes.filter fun n =>
            !hasOutboundRel relationships n).map NodeInfo.source_file,
         acc.2 ++ (nodes.filter fun n =>
            hasOutboundRel relationships n).map NodeInfo.source_file) := by
  induction nodes generalizing acc with
  | nil => simp
  | cons n ns ih =>
    rw [List.foldl_cons, ih]
    by_cases h : hasOutboundRel relationships n = true
    · simp [importOrderStep, h, List.filter_cons]
    · rw [Bool.not_eq_true] at h
      simp [importOrderStep, h, List.filter_cons]

/-- Claim C4: the computed import order is the two-bucket partition — all
node types without an outbound inferred relationship (in input order),
followed by all node types with one (in input order); hence a dependent
type `A` always comes after an independent type `B`. -/
theorem calculate_import_order_two_buckets
    (nodes : List NodeInfo) (relationships : List Relationship)
    (A B : NodeInfo) (hA : A ∈ nodes) (hB : B ∈ nodes)
    (hAdep : hasOutboundRel relationships A = true)
    (hBind : hasOutboundRel relationships B = false) :
    (_calculate_import_order nodes relationships
      = (nodes.filter fun n =>
            !hasOutboundRel relationships n).map NodeInfo.source_file
        ++ (nodes.filter fun n =>
            hasOutboundRel relationships n).map NodeInfo.source_file)
    ∧ B.source_file ∈ (nodes.filter fun n =>
          !hasOutboundRel relationships n).map NodeInfo.source_file
    ∧ A.source_file ∈ (nodes.filter fun n =>
          hasOutboundRel relationships n).map NodeInfo.source_file := by
  refine ⟨?_, ?_, ?_⟩
  · unfold _calculate_import_order
    rw [foldl_importOrderStep]
    simp
  · exact List.mem_map.mpr
      ⟨B, List.mem_filter.mpr ⟨hB, by simp [hBind]⟩, rfl⟩
  · exact List.mem_map.mpr
      ⟨A, List.mem_filter.mpr ⟨hA, hAdep⟩, rfl⟩

/-- Witness for C4 at the exemplar descriptors: `Assembly` refers to
`Product` via `product_id`, so `products.csv` is imported first. -/
theorem calculate_import_order_two_buckets_witness :
    (_calculate_import_order [assemblyNode, productNode]
        [assemblyBelongsToProduct]
      = ([assemblyNode, productNode].filter fun n =>
            !hasOutboundRel [assemblyBelongsToProduct] n).map
              NodeInfo.source_file
        ++ ([assemblyNode, productNode].filter fun n =>
            hasOutboundRel [assemblyBelongsToProduct] n).map
              NodeInfo.source_file)
    ∧ productNode.source_file ∈ ([assemblyNode, productNode].filter fun n =>
          !hasOutboundRel [assemblyBelongsToProduct] n).map
            NodeInfo.source_file
    ∧ assemblyNode.source_file ∈ ([assemblyNode, productNode].filter fun n =>
          hasOutboundRel [assemblyBelongsToProduct] n).map
            NodeInfo.source_file :=
  calculate_import_order_two_buckets [assemblyNode, productNode]
    [assemblyBelongsToProduct] assemblyNode productNode
    (by decide) (by decide) (by decide) (by decide)

theorem infer_rel_option_eq
    (node other : NodeInfo) (prop : Property) (r : Relationship) :
    ((if node = other then none
      else if (lowerStr prop.name) = (lowerStr other.label) ++ "_id"
          ∨ (lowerStr prop.name) = (lowerStr other.label) ++ "id" then
        some (⟨"BELONGS_TO_" ++ (upperStr other.label), node.label, other.label,
          prop.name, node.label ++ " belongs to " ++ other.label⟩ :
          Relationship)
      else none) = some r)
    ↔ node ≠ other
      ∧ ((lowerStr prop.name) = (lowerStr other.label) ++ "_id"
          ∨ (lowerStr prop.name) = (lowerStr other.label) ++ "id")
      ∧ r = ⟨"BELONGS_TO_" ++ (upperStr other.label), node.label, other.label,
          prop.name, node.label ++ " belongs to " ++ other.label⟩ := by
  split
  · simp [*]
  · split
    · simp_all [eq_comm]
    · simp_all

/-- Claim C9: relationship inference emits `X -[BELONGS_TO_Y]-> Y` on
property `p` exactly when `p`'s lowercased name is `Y`'s lowercased label
followed by `_id` or `id`, for an other node descriptor `Y` distinct from
`X`; nothing else is emitted, and comparing a descriptor with itself never
yields a relationship. -/
theorem infer_relationships_mem_iff (nodes : List NodeInfo)
    (r : Relationship) :
    r ∈ _infer_relationships nodes
      ↔ ∃ node ∈ nodes, ∃ prop ∈ node.properties, ∃ other ∈ nodes,
          node ≠ other
          ∧ ((lowerStr prop.name) = (lowerStr other.label) ++ "_id"
              ∨ (lowerStr prop.name) = (lowerStr other.label) ++ "id")
          ∧ r = ⟨"BELONGS_TO_" ++ (upperStr other.label), node.label,
              other.label, prop.name,
              node.label ++ " belongs to " ++ other.label⟩ := by
  simp only [_infer_relationships, List.mem_flatMap, List.mem_filterMap,
    infer_rel_option_eq]

end SchemaProposalAgent

namespace KGConstructorAgent

/-- Claim C7 counterexample: the L9 script's clear step is reachable with
the confirmation flag omitted — `construct_complete_graph`'s
`clear_existing` parameter defaults to true, so the delete statement is
issued without any caller-supplied flag. -/
theorem construct_clears_by_default :
    clearExistingDefault = true
    ∧ constructClearQueries clearExistingDefault = [Query.deleteAllNodes]
    ∧ ¬ constructClearQueries clearExistingDefault = [] := by
  refine ⟨rfl, rfl, by decide⟩

/-- Claim C7 (amended): the agent's `clear_database_tool` requires explicit
confirmation — with the flag false (the omitted-parameter default) it
returns an error, issues no statement and leaves the store unchanged, and
it issues the delete statement iff the flag is true; the L9 script's
`construct_complete_graph`, by contrast, issues the delete statement iff
`clear_existing` is true, which is its default. -/
theorem clear_database_tool_requires_confirm (store : List KG.GraphNode) :
    clear_database_tool false store
      = (ToolResult.error
          "Database clear requires explicit confirmation. This will delete all existing data!",
         [], store)
    ∧ confirmDefault = false
    ∧ (∀ confirm, Query.deleteAllNodes
          ∈ (clear_database_tool confirm store).2.1 ↔ confirm = true)
    ∧ (∀ clearExisting, Query.deleteAllNodes
          ∈ constructClearQueries clearExisting ↔ clearExisting = true) := by
  refine ⟨rfl, rfl, ?_, ?_⟩
  · intro b
    cases b <;> simp [clear_database_tool, clear_neo4j_data]
  · intro b
    cases b <;> simp [constructClearQueries]

/-- Claim C6: with nodes `Product{product_id: P1}` and
`Assembly{product_id: P1}` and descriptor
`{CONTAINS, Product, Assembly, product_id}`, one run creates exactly one
CONTAINS edge and a second run on the resulting state adds nothing. -/
theorem create_relationships_idempotent :
    (createRelationship
        ⟨[⟨"Product", [("product_id", KG.Value.str "P1")]⟩,
          ⟨"Assembly", [("product_id", KG.Value.str "P1")]⟩], []⟩
        ⟨"Product", "Assembly", "CONTAINS", "product_id"⟩).edges
      = [⟨0, 1, "CONTAINS"⟩]
    ∧ createRelationship
        (createRelationship
          ⟨[⟨"Product", [("product_id", KG.Value.str "P1")]⟩,
            ⟨"Assembly", [("product_id", KG.Value.str "P1")]⟩], []⟩
          ⟨"Product", "Assembly", "CONTAINS", "product_id"⟩)
        ⟨"Product", "Assembly", "CONTAINS", "product_id"⟩
      = createRelationship
          ⟨[⟨"Product", [("product_id", KG.Value.str "P1")]⟩,
            ⟨"Assembly", [("product_id", KG.Value.str "P1")]⟩], []⟩
          ⟨"Product", "Assembly", "CONTAINS", "product_id"⟩ := by
  refine ⟨by decide, by decide⟩

end KGConstructorAgent

namespace KG

theorem mergeNode_nil (label : String) (pattern : List (String × Value)) :
    mergeNode [] label pattern = [⟨label, pattern⟩] := rfl

theorem mem_projectRecord (row : Record) (pk : String) (ps : List String)
    (k : String) (v : Value) :
    (k, v) ∈ projectRecord row pk ps
      ↔ k ∈ pk :: ps ∧ row.lookup k = some (some v) := by
  simp only [projectRecord, List.mem_filterMap]
  constructor
  · rintro ⟨p, hp, hf⟩
    cases hl : row.lookup p with
    | none => rw [hl] at hf; simp at hf
    | some ov =>
      cases ov with
      | none => rw [hl] at hf; simp at hf
      | some w =>
        rw [hl] at hf
        simp only [Option.some.injEq, Prod.mk.injEq] at hf
        obtain ⟨rfl, rfl⟩ := hf
        exact ⟨hp, hl⟩
  · rintro ⟨hk, hl⟩
    exact ⟨k, hk, by rw [hl]⟩

theorem lookup_filterMap_keys (row : Record) (q : String) (v : Value)
    (hl : row.lookup q = some (some v)) :
    ∀ keys : List String, q ∈ keys →
      (keys.filterMap fun p =>
        match row.lookup p with
        | some (some w) => some (p, w)
        | _ => none).lookup q = some v := by
  intro keys
  induction keys with
  | nil => intro h; cases h
  | cons p keys ih =>
    intro hmem
    by_cases hpq : p = q
    · subst hpq
      simp only [List.filterMap_cons, hl, List.lookup_cons_self]
    · have hq : q ∈ keys := by
        cases hmem with
        | head => exact absurd rfl hpq
        | tail _ h => exact h
      simp only [List.filterMap_cons]
      cases hrl : row.lookup p with
      | none => exact ih hq
      | some ov =>
        cases ov with
        | none => exact ih hq
        | some w =>
          have hne : (q == p) = false := by
            simp [Ne.symm hpq]
          simp only [List.lookup_cons, hne]
          exact ih hq

theorem lookup_projectRecord (row : Record) (pk : String) (ps : List String)
    (q : String) (v : Value) (hq : q ∈ pk :: ps)
    (hl : row.lookup q = some (some v)) :
    (projectRecord row pk ps).lookup q = some v :=
  lookup_filterMap_keys row q v hl (pk :: ps) hq

/-- Claim C1: a record's merge statement carries exactly the key-value
projection of the record restricted to `{primaryKey} ∪ properties` with
absent/null values skipped, and the merge matches only on the full property
set, so two imports of the same logical entity (equal primary-key value)
that differ in one optional property value create two distinct nodes in the
store rather than matching. -/
theorem create_nodes_merge_by_full_property_set
    (row : Record) (pk : String) (ps : List String) (k : String) (v : Value)
    (label : String) (r1 r2 : Record) (pv v1 v2 : Value) (q : String)
    (hq : q ∈ ps)
    (hpk1 : r1.lookup pk = some (some pv))
    (hpk2 : r2.lookup pk = some (some pv))
    (h1 : r1.lookup q = some (some v1)) (h2 : r2.lookup q = some (some v2))
    (hne : v1 ≠ v2) :
    ((k, v) ∈ projectRecord row pk ps
        ↔ k ∈ pk :: ps ∧ row.lookup k = some (some v))
    ∧ (mergeNode (mergeNode [] label (projectRecord r1 pk ps)) label
          (projectRecord r2 pk ps)).length = 2 := by
  refine ⟨mem_projectRecord row pk ps k v, ?_⟩
  rw [mergeNode_nil]
  have hmem2 : (q, v2) ∈ projectRecord r2 pk ps :=
    (mem_projectRecord r2 pk ps q v2).mpr ⟨List.mem_cons_of_mem _ hq, h2⟩
  have hlk1 : (projectRecord r1 pk ps).lookup q = some v1 :=
    lookup_projectRecord r1 pk ps q v1 (List.mem_cons_of_mem _ hq) h1
  have hall : (projectRecord r2 pk ps).all
      (fun kv => (projectRecord r1 pk ps).lookup kv.1 == some kv.2)
        = false := by
    rw [Bool.eq_false_iff]
    intro hcontr
    have := List.all_eq_true.mp hcontr (q, v2) hmem2
    rw [beq_iff_eq, hlk1, Option.some.injEq] at this
    exact hne this
  unfold mergeNode
  rw [if_neg]
  · simp
  · simp only [List.any_cons, List.any_nil, Bool.or_false, beq_self_eq_true,
      Bool.true_and, hall]
    simp

/-- Witness for C1: two imports of product P1 differing only in `price`
produce two stored nodes. -/
theorem create_nodes_merge_by_full_property_set_witness :
    (("price", Value.num 10) ∈ projectRecord productP1a "product_id" ["price"]
        ↔ "price" ∈ "product_id" :: ["price"]
          ∧ productP1a.lookup "price" = some (some (Value.num 10)))
    ∧ (mergeNode (mergeNode [] "Product"
          (projectRecord productP1a "product_id" ["price"])) "Product"
          (projectRecord productP1b "product_id" ["price"])).length = 2 :=
  create_nodes_merge_by_full_property_set productP1a "product_id" ["price"]
    "price" (Value.num 10) "Product" productP1a productP1b
    (Value.str "P1") (Value.num 10) (Value.num 12) "price"
    (by decide) (by decide) (by decide) (by decide) (by decide) (by decide)

end KG

namespace KG

theorem chunksAux_nil (bs fuel : Nat) :
    chunksAux bs fuel ([] : List α) = [] := by
  cases fuel <;> rfl

theorem chunksAux_cons_of_ne_nil (bs fuel : Nat) (l : List α) (h : l ≠ []) :
    chunksAux bs (fuel + 1) l = l.take bs :: chunksAux bs fuel (l.drop bs) := by
  cases l with
  | nil => exact absurd rfl h
  | cons x xs => rfl

theorem flatten_chunksAux (bs : Nat) (hbs : 0 < bs) :
    ∀ (fuel : Nat) (l : List α), l.length ≤ fuel →
      (chunksAux bs fuel l).flatten = l := by
  intro fuel
  induction fuel with
  | zero =>
    intro l hl
    rw [List.length_eq_zero.mp (Nat.le_zero.mp hl)]
    rfl
  | succ fuel ih =>
    intro l hl
    cases l with
    | nil => rw [chunksAux_nil]; rfl
    | cons x xs =>
      rw [chunksAux_cons_of_ne_nil bs fuel _ (by simp), List.flatten_cons,
        ih ((x :: xs).drop bs) (by simp at hl ⊢; omega)]
      exact List.take_append_drop bs (x :: xs)

theorem flatten_chunks (bs : Nat) (hbs : 0 < bs) (l : List α) :
    (chunks bs l).flatten = l :=
  flatten_chunksAux bs hbs l.length l (Nat.le_refl _)

theorem buildMergeStatements_append (b1 b2 : List Record)
    (label pk : String) (ps : List String) :
    buildMergeStatements (b1 ++ b2) label pk ps
      = buildMergeStatements b1 label pk ps
        ++ buildMergeStatements b2 label pk ps :=
  List.filterMap_append b1 b2 _

theorem buildMergeStatements_cons (r : Record) (rs : List Record)
    (label pk : String) (ps : List String) :
    buildMergeStatements (r :: rs) label pk ps
      = if (projectRecord r pk ps).isEmpty then
          buildMergeStatements rs label pk ps
        else ⟨label, projectRecord r pk ps⟩ :: buildMergeStatements rs label pk ps := by
  by_cases hr : projectRecord r pk ps = [] <;>
    simp [buildMergeStatements, List.filterMap_cons, hr]

theorem length_buildMergeStatements (batch : List Record)
    (label pk : String) (ps : List String) :
    (buildMergeStatements batch label pk ps).length
      = batch.countP (fun r => !(projectRecord r pk ps).isEmpty) := by
  induction batch with
  | nil => rfl
  | cons r rs ih =>
    rw [buildMergeStatements_cons]
    cases hemp : (projectRecord r pk ps).isEmpty <;>
      simp [List.countP_cons, hemp, ih]

theorem length_buildMergeStatements_of_nonempty (batch : List Record)
    (label pk : String) (ps : List String)
    (h : ∀ r ∈ batch, projectRecord r pk ps ≠ []) :
    (buildMergeStatements batch label pk ps).length = batch.length := by
  rw [length_buildMergeStatements]
  apply List.countP_eq_length.mpr
  intro r hr
  simp [List.isEmpty_iff, h r hr]

theorem isEmpty_false_of_length_pos (l : List MergeStatement)
    (h : 0 < l.length) : l.isEmpty = false := by
  cases l with
  | nil => simp at h
  | cons x xs => rfl

theorem runBatches_sent_flatten (outcome : Nat → Bool)
    (label pk : String) (ps : List String) :
    ∀ (cs : List (List Record)) (k : Nat),
      (runBatches outcome label pk ps cs k).sentBatches.flatten
        = buildMergeStatements cs.flatten label pk ps := by
  intro cs
  induction cs with
  | nil => intro k; rfl
  | cons c cs ih =>
    intro k
    rw [List.flatten_cons, buildMergeStatements_append]
    by_cases hemp : (buildMergeStatements c label pk ps).isEmpty = true
    · have hc : buildMergeStatements c label pk ps = [] :=
        List.isEmpty_iff.mp hemp
      simp [runBatches, hc, ih]
    · rw [Bool.not_eq_true] at hemp
      cases ho : outcome k <;> simp [runBatches, hemp, ho, ih]

theorem runBatches_all_success (label pk : String) (ps : List String) :
    ∀ (cs : List (List Record)) (k : Nat),
      (runBatches (fun _ => true) label pk ps cs k).nodesCreated
        = (buildMergeStatements cs.flatten label pk ps).length
      ∧ (runBatches (fun _ => true) label pk ps cs k).issues = 0 := by
  intro cs
  induction cs with
  | nil => intro k; exact ⟨rfl, rfl⟩
  | cons c cs ih =>
    intro k
    rw [List.flatten_cons, buildMergeStatements_append]
    by_cases hemp : (buildMergeStatements c label pk ps).isEmpty = true
    · have hc : buildMergeStatements c label pk ps = [] :=
        List.isEmpty_iff.mp hemp
      simp [runBatches, hc, ih k]
    · rw [Bool.not_eq_true] at hemp
      simp [runBatches, hemp, (ih (k + 1)).1, (ih (k + 1)).2,
        List.length_append]

/-- Claim C10: a record whose projection is empty contributes no merge
statement, and with every batch succeeding the returned count is the number
of records with a nonempty projection — the statements sent are exactly
those of the records with at least one non-null projected property, and a
one-record set whose only projected property is null yields count 0 from 1
input record. -/
theorem create_nodes_counts_nonempty_projections
    (df : List Record) (label pk : String) (ps : List String) :
    (create_nodes df label pk ps (fun _ => true)).nodesCreated
      = df.countP (fun r => !(projectRecord r pk ps).isEmpty)
    ∧ (create_nodes df label pk ps (fun _ => true)).sentBatches.flatten
      = buildMergeStatements df label pk ps
    ∧ (∀ r : Record, projectRecord r pk ps = []
        → buildMergeStatements [r] label pk ps = [])
    ∧ (create_nodes [[("id", (none : Option Value))]] "L" "id" []
        (fun _ => true)).nodesCreated = 0
    ∧ ([[("id", (none : Option Value))]] : List Record).length = 1 := by
  refine ⟨?_, ?_, ?_, by decide, rfl⟩
  · unfold create_nodes
    rw [(runBatches_all_success label pk ps (chunks batchSize df) 0).1,
      flatten_chunks batchSize (by decide) df, length_buildMergeStatements]
  · unfold create_nodes
    rw [runBatches_sent_flatten (fun _ => true) label pk ps
        (chunks batchSize df) 0,
      flatten_chunks batchSize (by decide) df]
  · intro r hr
    simp [buildMergeStatements, List.filterMap_cons, hr]

end KG

namespace KG

/-- Claim C2: on a 130-record set (each record projecting at least one
property) with batch size 50, create_nodes sends exactly 3 batch statements
of 50, 50 and 30 merges and returns 130 with no issue when every batch
succeeds; when exactly the second batch fails it returns 80, records one
issue, and the third batch is still sent. -/
theorem create_nodes_batching_130
    (df : List Record) (label pk : String) (ps : List String)
    (hlen : df.length = 130)
    (hproj : ∀ r ∈ df, projectRecord r pk ps ≠ []) :
    ((create_nodes df label pk ps (fun _ => true)).sentBatches.map
        List.length = [50, 50, 30])
    ∧ (create_nodes df label pk ps (fun _ => true)).nodesCreated = 130
    ∧ (create_nodes df label pk ps (fun _ => true)).issues = 0
    ∧ (create_nodes df label pk ps (fun k => k != 1)).nodesCreated = 80
    ∧ (create_nodes df label pk ps (fun k => k != 1)).issues = 1
    ∧ ((create_nodes df label pk ps (fun k => k != 1)).sentBatches.map
        List.length = [50, 50, 30]) := by
  have hne : df ≠ [] := by intro h; rw [h] at hlen; simp at hlen
  have hld1 : (df.drop 50).length = 80 := by rw [List.length_drop, hlen]
  have hne1 : df.drop 50 ≠ [] := by intro h; rw [h] at hld1; simp at hld1
  have hld2 : ((df.drop 50).drop 50).length = 30 := by
    rw [List.length_drop, hld1]
  have hne2 : (df.drop 50).drop 50 ≠ [] := by
    intro h; rw [h] at hld2; simp at hld2
  have h30le : ((df.drop 50).drop 50).length ≤ 50 := by rw [hld2]; omega
  have hdrop3 : ((df.drop 50).drop 50).drop 50 = [] :=
    List.drop_eq_nil_of_le h30le
  have htake3 : ((df.drop 50).drop 50).take 50 = (df.drop 50).drop 50 :=
    List.take_of_length_le h30le
  have hchunks : chunks batchSize df
      = [df.take 50, (df.drop 50).take 50, (df.drop 50).drop 50] := by
    unfold chunks batchSize
    rw [hlen]
    rw [show (130 : Nat) = 129 + 1 from rfl,
      chunksAux_cons_of_ne_nil _ _ _ hne]
    rw [show (129 : Nat) = 128 + 1 from rfl,
      chunksAux_cons_of_ne_nil _ _ _ hne1]
    rw [show (128 : Nat) = 127 + 1 from rfl,
      chunksAux_cons_of_ne_nil _ _ _ hne2]
    rw [hdrop3, chunksAux_nil, htake3]
  have hb0 : (buildMergeStatements (df.take 50) label pk ps).length = 50 := by
    rw [length_buildMergeStatements_of_nonempty _ _ _ _
      (fun r hr => hproj r (List.take_subset _ _ hr))]
    rw [List.length_take, hlen]
    omega
  have hb1 : (buildMergeStatements ((df.drop 50).take 50) label pk ps).length
      = 50 := by
    rw [length_buildMergeStatements_of_nonempty _ _ _ _
      (fun r hr => hproj r (List.drop_subset _ _ (List.take_subset _ _ hr)))]
    rw [List.length_take, hld1]
    omega
  have hb2 : (buildMergeStatements ((df.drop 50).drop 50) label pk ps).length
      = 30 := by
    rw [length_buildMergeStatements_of_nonempty _ _ _ _
      (fun r hr => hproj r (List.drop_subset _ _ (List.drop_subset _ _ hr)))]
    exact hld2
  have hdd : (df.drop 50).drop 50 = df.drop 100 := by
    rw [List.drop_drop]
  rw [hdd] at hchunks hb2
  have hS0 : buildMergeStatements (df.take 50) label pk ps ≠ [] := by
    intro h; rw [h] at hb0; simp at hb0
  have hS1 : buildMergeStatements ((df.drop 50).take 50) label pk ps
      ≠ [] := by
    intro h; rw [h] at hb1; simp at hb1
  have hS2 : buildMergeStatements (df.drop 100) label pk ps ≠ [] := by
    intro h; rw [h] at hb2; simp at hb2
  unfold create_nodes
  rw [hchunks]
  refine ⟨?_, ?_, ?_, ?_, ?_, ?_⟩ <;>
    simp [runBatches, hS0, hS1, hS2, hb0, hb1, hb2]

set_option maxRecDepth 100000 in
/-- Witness for C2 at the 130-row exemplar record set. -/
theorem create_nodes_batching_130_witness :
    df130.length = 130
    ∧ ((create_nodes df130 "Product" "id" [] (fun _ => true)).sentBatches.map
        List.length = [50, 50, 30])
    ∧ (create_nodes df130 "Product" "id" [] (fun _ => true)).nodesCreated
        = 130
    ∧ (create_nodes df130 "Product" "id" [] (fun k => k != 1)).nodesCreated
        = 80
    ∧ (create_nodes df130 "Product" "id" [] (fun k => k != 1)).issues = 1 := by
  have h := create_nodes_batching_130 df130 "Product" "id" []
    (by decide) (by decide)
  exact ⟨by decide, h.1, h.2.1, h.2.2.2.1, h.2.2.2.2.1⟩

end KG
